import Mathlib

/-!
Verification of the ApplyBuddy job-application helper (`streamlit_app.py`)
against its natural-language specification.

The Python source is shallowly embedded: strings are modelled as `List Char`
(Python indexes and slices strings by character position, which matches list
indices, unlike Lean's byte-based `String.Pos`), Python functions become Lean
functions, the Streamlit session state becomes an explicit state type with a
step function, and the network / OpenAI effects are modelled by passing the
outcome of the external call as an explicit argument.  Python `str.upper`
maps one character to a *string* (`"ß".upper() == "SS"`), so it is modelled
as a character-to-string map flattened over the input; see `pyUpperChar`.
-/

namespace ApplyBuddy

/-- Python `str` whitespace for `strip()`: space, tab, newline, carriage
return, vertical tab, form feed. -/
def pyIsSpace (c : Char) : Bool :=
  c = ' ' || c = '\t' || c = '\n' || c = '\r' || c = '\x0b' || c = '\x0c'

/-- Python `s.strip()`: drop leading and trailing whitespace characters. -/
def pyStrip (s : List Char) : List Char :=
  ((s.dropWhile pyIsSpace).reverse.dropWhile pyIsSpace).reverse

/-- Python `str.upper` for one character, which in general yields a
*string*: ASCII letters map `a`–`z` to `A`–`Z`; the Latin one-to-many
uppercase expansions of Unicode SpecialCasing that Python applies are
modelled explicitly (`ß → SS`, the seven Latin ligatures, `ŉ → ʼN`), as
are the one-to-one mappings into ASCII (`ı → I`, `ſ → S`).  The remaining
Unicode mappings (e.g. `é → É`, and the Greek/Armenian expanding entries)
produce only non-ASCII characters, so while an unmodelled expansion could
shift positions like the modelled ones do, none can create or destroy an
occurrence of the ASCII markers this file reasons about. -/
def pyUpperChar (c : Char) : List Char :=
  if c = 'ß' then ['S', 'S']
  else if c = 'ﬀ' then ['F', 'F']
  else if c = 'ﬁ' then ['F', 'I']
  else if c = 'ﬂ' then ['F', 'L']
  else if c = 'ﬃ' then ['F', 'F', 'I']
  else if c = 'ﬄ' then ['F', 'F', 'L']
  else if c = 'ﬅ' then ['S', 'T']
  else if c = 'ﬆ' then ['S', 'T']
  else if c = 'ŉ' then ['ʼ', 'N']
  else if c = 'ı' then ['I']
  else if c = 'ſ' then ['S']
  else [c.toUpper]

/-- Python `s.upper()`: each character's uppercase string, concatenated.
Because of the expanding mappings in `pyUpperChar` the result can be longer
than the input, so positions in `s.upper()` need not be positions
in `s`. -/
def pyUpper (s : List Char) : List Char :=
  s.flatMap pyUpperChar

/-- Helper for `pyFind`: first index `≥ i` at which `pat` occurs in the
remaining suffix of the string. -/
def pyFindAux (pat : List Char) : List Char → Nat → Option Nat
  | [], i => if pat = [] then some i else none
  | c :: rest, i =>
    if pat.isPrefixOf (c :: rest) then some i else pyFindAux pat rest (i + 1)

/-- Python `s.find(pat)` returning `none` instead of `-1`: index of the first
occurrence of `pat` in `s`. -/
def pyFind (s pat : List Char) : Option Nat :=
  pyFindAux pat s 0

/-- Python slice `s[a:b]` (for `0 ≤ a, b`): the characters from position `a`
up to but excluding position `b`; empty when `b ≤ a`. -/
def pySlice (s : List Char) (a b : Nat) : List Char :=
  (s.drop a).take (b - a)

/-- Specification-side occurrence predicate: `pat` occurs in `s` at
position `i`. -/
def occursAt (pat s : List Char) (i : Nat) : Prop :=
  pat.isPrefixOf (s.drop i)

instance (pat s : List Char) (i : Nat) : Decidable (occursAt pat s i) := by
  unfold occursAt; infer_instance

/-- The section marker `"COVER LETTER:"` searched for by the splitter. -/
def coverMarker : List Char := "COVER LETTER:".toList

/-- The end marker `"CV IMPROVEMENT"` searched for by the splitter. -/
def cvMarker : List Char := "CV IMPROVEMENT".toList

/-- The output splitter (lines 250–260 of `streamlit_app.py`):

    if "COVER LETTER:" in output.upper():
        upper = output.upper()
        start = upper.find("COVER LETTER:")
        end = upper.find("CV IMPROVEMENT")
        if end == -1:
            cover_letter_text = output[start + len("COVER LETTER:"):].strip()
        else:
            cover_letter_text = output[start + len("COVER LETTER:"): end].strip()
    else:
        cover_letter_text = output
-/
def coverLetterText (output : List Char) : List Char :=
  match pyFind (pyUpper output) coverMarker with
  | none => output
  | some start =>
    match pyFind (pyUpper output) cvMarker with
    | none => pyStrip (output.drop (start + coverMarker.length))
    | some e => pyStrip (pySlice output (start + coverMarker.length) e)

/-! ### Web scraper (`scrape_job_description`, lines 58–78) -/

/-- A node of the parsed HTML document, as produced by
`BeautifulSoup(resp.text, "html.parser")`: either a text node or an element
with a tag name and children. -/
inductive Node where
  | text : List Char → Node
  | elem : String → List Node → Node

/-- Tags removed by the scraper before text extraction:
`for script in soup(["script", "style", "noscript"]): script.decompose()`. -/
def badTags : List String := ["script", "style", "noscript"]

mutual
/-- Effect of `decompose()` on a single node: a whole `script`/`style`/
`noscript` subtree is removed, other elements keep their (recursively
processed) children. -/
def decomposeNode : Node → List Node
  | .text s => [.text s]
  | .elem t cs => if t ∈ badTags then [] else [.elem t (decomposeForest cs)]

/-- Effect of `decompose()` on a list of sibling nodes. -/
def decomposeForest : List Node → List Node
  | [] => []
  | n :: ns => decomposeNode n ++ decomposeForest ns
end

mutual
/-- All text-node contents of a node, in document order (what
`soup.get_text` concatenates). -/
def textsNode : Node → List (List Char)
  | .text s => [s]
  | .elem _ cs => textsForest cs

/-- All text-node contents of a list of sibling nodes, in document order. -/
def textsForest : List Node → List (List Char)
  | [] => []
  | n :: ns => textsNode n ++ textsForest ns
end

/-- `soup.get_text(separator="\n")`: all text-node strings joined with a
newline separator. -/
def getText (doc : List Node) : List Char :=
  List.intercalate ['\n'] (textsForest doc)

/-- The line normalization at lines 76–78 of the source:

    lines = [line.strip() for line in text.splitlines() if line.strip()]
    return "\n".join(lines)

(`splitlines` and `split("\n")` agree here up to a trailing empty piece,
which the blank-line filter removes either way). -/
def normalizeLines (text : List Char) : List Char :=
  List.intercalate ['\n'] (((text.splitOn '\n').map pyStrip).filter (· ≠ []))

/-- The HTML-processing part of `scrape_job_description` (lines 70–78): strip
`script`/`style`/`noscript` subtrees, join the remaining text nodes with
newlines, then strip each line and drop blank lines. -/
def scrapeBody (doc : List Node) : List Char :=
  normalizeLines (getText (decomposeForest doc))

/-- A successful HTTP response: status code plus the parsed HTML body. -/
structure HttpResponse where
  status : Nat
  body : List Node

/-- `resp.raise_for_status()` raises exactly for client and server error
status codes (4xx and 5xx). -/
def raisesForStatus (status : Nat) : Bool :=
  400 ≤ status && status < 600

/-- The sentinel marker prefix of scraper failures. -/
def scrapeErrMarker : List Char := "[Scrape error]".toList

/-- Message text of the exception raised by `raise_for_status`, modelled as
a function of the status code. -/
def statusErrText (status : Nat) : List Char :=
  "HTTP error ".toList ++ (Nat.toDigits 10 status)

/-- `scrape_job_description` (lines 58–78).  The outcome of
`requests.get` is passed explicitly: `.error msg` is a transport-level
failure (timeout, DNS failure, connection error) raised inside the `try`
block, `.ok resp` a completed HTTP exchange.  The `except` clause turns any
raised exception `e` into `f"[Scrape error] {e}"`. -/
def scrape_job_description (fetch : Except (List Char) HttpResponse) : List Char :=
  match fetch with
  | .error e => scrapeErrMarker ++ (' ' :: e)
  | .ok resp =>
    if raisesForStatus resp.status then
      scrapeErrMarker ++ (' ' :: statusErrText resp.status)
    else
      scrapeBody resp.body

mutual
/-- Specification-side definition, following §4.2 of the spec: the visible
text nodes of a node, in document order, where the contents of `script`,
`style` and `noscript` elements "never leak into the output". -/
def visibleTextsNode : Node → List (List Char)
  | .text s => [s]
  | .elem t cs => if t ∈ badTags then [] else visibleTextsForest cs

/-- Visible text nodes of a list of sibling nodes, in document order. -/
def visibleTextsForest : List Node → List (List Char)
  | [] => []
  | n :: ns => visibleTextsNode n ++ visibleTextsForest ns
end

/-! ### Exporters (`save_as_docx` lines 137–144, `save_as_pdf` lines 149–185) -/

/-- Helper for `pySplit`: fuel-driven left-to-right scan for non-overlapping
occurrences of the (non-empty) separator. -/
def splitSeqFuel (sep : List Char) : Nat → List Char → List Char → List (List Char)
  | 0, acc, s => [acc.reverse ++ s]
  | _ + 1, acc, [] => [acc.reverse]
  | fuel + 1, acc, c :: rest =>
    if sep.isPrefixOf (c :: rest) then
      acc.reverse :: splitSeqFuel sep fuel [] (rest.drop (sep.length - 1))
    else
      splitSeqFuel sep fuel (c :: acc) rest

/-- Python `s.split(sep)` for a non-empty separator: split on each
left-to-right non-overlapping occurrence of `sep`, keeping empty pieces. -/
def pySplit (s sep : List Char) : List (List Char) :=
  splitSeqFuel sep (s.length + 1) [] s

/-- `save_as_docx` (lines 137–144): the paragraph texts of the produced Word
document — one `doc.add_paragraph(para)` per piece of
`text.split("\n\n")`, in order. -/
def save_as_docx (text : List Char) : List (List Char) :=
  pySplit text "\n\n".toList

/-- The `SMART_MAP` translation table of `sanitize_ascii`
(lines 157–166): each smart-punctuation character and its replacement
string. -/
def smartRepl (c : Char) : Option (List Char) :=
  if c = '’' then some ['\x27']
  else if c = '‘' then some ['\x27']
  else if c = '“' then some ['"']
  else if c = '”' then some ['"']
  else if c = '–' then some ['-']
  else if c = '—' then some ['-']
  else if c = '•' then some ['*']
  else if c = '…' then some ['.', '.', '.']
  else none

/-- Python `s.translate(SMART_MAP)`: replace each mapped character by its
replacement string, leave every other character unchanged. -/
def pyTranslate (s : List Char) : List Char :=
  s.flatMap (fun c => (smartRepl c).getD [c])

/-- Python `s.encode("ascii", "ignore").decode("ascii")`: drop every
non-ASCII codepoint. -/
def encodeAsciiIgnore (s : List Char) : List Char :=
  s.filter (fun c => c.toNat < 128)

/-- `sanitize_ascii` (lines 155–167): smart-punctuation substitution
followed by ASCII encoding with undecodable codepoints ignored. -/
def sanitize_ascii (s : List Char) : List Char :=
  encodeAsciiIgnore (pyTranslate s)

/-- The produced PDF, modelled by the lines written into it (one
`pdf.multi_cell(0, 8, line)` per piece of `safe_text.split("\n")`). -/
structure PdfDoc where
  cells : List (List Char)
deriving DecidableEq

/-- `save_as_pdf` (lines 149–185): when the embedded-font file exists the
full Unicode text is used; otherwise (`FileNotFoundError` raised and caught)
the core Latin-1 font is selected and the text is ASCII-sanitized.  Each
newline-separated line becomes one wrapped cell. -/
def save_as_pdf (fontFileExists : Bool) (text : List Char) : PdfDoc :=
  let safe_text := if fontFileExists then text else sanitize_ascii text
  ⟨pySplit safe_text ['\n']⟩

/-! ### Prompt composer / generation client
(`generate_cover_letter_and_cv_tips`, lines 98–135) -/

/-- Python `s.strip()` on `String`. -/
def pyStripS (s : String) : String :=
  String.mk (pyStrip s.toList)

/-- The composed prompt (lines 100–125): the f-string instruction template
with the job description, CV text and tone interpolated, then `.strip()`ed. -/
def promptText (job_description cv_text tone : String) : String :=
  pyStripS ("\nYou are an expert career coach and technical recruiter.\n\nTASKS:\n1) Based on the job description below, write a highly tailored cover letter for the applicant using their CV.\n   - The tone of the letter should be: " ++ tone ++ "\n   - Keep it to one page equivalent (max ~350 words).\n   - Use clear, concise language and specific evidence from the CV that matches job needs.\n2) Suggest concrete, bullet-point improvements to the CV so it matches the job better.\n   - Focus on measurable impact, keywords, and ordering.\n\nJOB DESCRIPTION:\n" ++ job_description ++ "\n\nAPPLICANT CV:\n" ++ cv_text ++ "\n\nOutput format:\n---\nCOVER LETTER:\n[Your cover letter]\n---\nCV IMPROVEMENT SUGGESTIONS:\n[Bulleted list]\n---\n")

/-- One message of the chat-completion request. -/
structure ChatMessage where
  role : String
  content : String
deriving DecidableEq

/-- The chat-completion request issued by
`client.chat.completions.create` (lines 127–133). -/
structure ChatRequest where
  model : String
  messages : List ChatMessage
deriving DecidableEq

/-- `generate_cover_letter_and_cv_tips` (lines 98–135), modelled by the chat
request it issues.  The source passes `model=model_name` — the module-level
global holding the dropdown selection — to
`client.chat.completions.create`, not the function's own `model` parameter;
the global is therefore an explicit first argument here, and the `model`
parameter is kept (unused) exactly as in the source. -/
def generate_cover_letter_and_cv_tips (model_name : String)
    (job_description cv_text tone model : String) : ChatRequest :=
  { model := model_name,
    messages := [⟨"system", "You are a professional career coach."⟩,
                 ⟨"user", promptText job_description cv_text tone⟩] }

/-! ### API-key session state (lines 26–53) -/

/-- The slice of `st.session_state` the key-handling code touches.
`api_key` starts as `None` (line 27); `show_api_input` starts `True`
(line 29). -/
structure SessionState where
  api_key : Option String
  show_api_input : Bool
deriving DecidableEq

/-- Initial session state (lines 26–29). -/
def initSession : SessionState :=
  { api_key := none, show_api_input := true }

/-- `save_api_key` (lines 31–35): only acts when the entered text is truthy
(a non-empty string); it then stores the stripped text and hides the
input. -/
def save_api_key (temp_api_key : String) (s : SessionState) : SessionState :=
  if temp_api_key ≠ "" then
    { api_key := some (pyStripS temp_api_key), show_api_input := false }
  else s

/-- `change_api_key` (lines 37–38): re-show the input form. -/
def change_api_key (s : SessionState) : SessionState :=
  { s with show_api_input := true }

/-- A user action on the key form: pressing "Save API Key" with some entered
text, or pressing "Change API Key". -/
inductive KeyOp where
  | save : String → KeyOp
  | change : KeyOp

/-- Apply one key-form action to the session state. -/
def applyKeyOp (s : SessionState) : KeyOp → SessionState
  | .save t => save_api_key t s
  | .change => change_api_key s

/-- Run a sequence of key-form actions from the initial state. -/
def runKeyOps (ops : List KeyOp) : SessionState :=
  ops.foldl applyKeyOp initSession

/-- The gate at lines 48–50 (`if not st.session_state.api_key: st.stop()`):
the rest of the script runs iff the stored key is truthy, i.e. present and
non-empty. -/
def allowedToRun (s : SessionState) : Bool :=
  match s.api_key with
  | none => false
  | some k => k != ""

/-! ### The Generate-button handler (lines 220–276) -/

/-- The sentinel marker prefix of CV-read failures (`read_cv`, line 96). -/
def cvErrMarker : List Char := "[CV read error]".toList

/-- Observable outcome of one press of the Generate button. -/
structure RunOutcome where
  warned : Bool
  errorShown : Option (List Char)
  generateCalled : Bool
  crashed : Bool
  artifacts : Option (List (List Char) × PdfDoc)

/-- The Generate-button handler (lines 220–276).  External effects are passed
explicitly: `inputsPresent` is the truthiness of `job_url and cv_file`,
`job_desc` is what `scrape_job_description` returned, `cv_content` what
`read_cv` returned, `model_name` the dropdown global, `gen` the outcome of
the OpenAI call, and `fontFileExists` whether the embedded-font file is
present.  `artifacts` holds the Word paragraphs and the PDF offered by the
two download buttons.  When `model_name.strip()` is empty, line 236
(`model = model_name.strip() or model_default`) evaluates the undefined
name `model_default` and raises `NameError`, aborting the run
(`crashed`). -/
def generateHandler (inputsPresent : Bool) (job_desc cv_content : List Char)
    (model_name : String) (gen : Except (List Char) (List Char))
    (fontFileExists : Bool) : RunOutcome :=
  if !inputsPresent then
    { warned := true, errorShown := none, generateCalled := false,
      crashed := false, artifacts := none }
  else if scrapeErrMarker.isPrefixOf job_desc then
    { warned := false, errorShown := some job_desc, generateCalled := false,
      crashed := false, artifacts := none }
  else if cvErrMarker.isPrefixOf cv_content then
    { warned := false, errorShown := some cv_content, generateCalled := false,
      crashed := false, artifacts := none }
  else if pyStripS model_name = "" then
    { warned := false, errorShown := none, generateCalled := false,
      crashed := true, artifacts := none }
  else
    match gen with
    | .error e =>
      { warned := false, errorShown := some ("[OpenAI error] ".toList ++ e),
        generateCalled := true, crashed := false, artifacts := none }
    | .ok output =>
      let cover := coverLetterText output
      { warned := false, errorShown := none, generateCalled := true,
        crashed := false,
        artifacts := some (save_as_docx cover, save_as_pdf fontFileExists cover) }

/-! ### Helper lemmas about `pyFind` -/

theorem pyFindAux_min (pat : List Char) (s : List Char) :
    ∀ (i j : Nat), pat.isPrefixOf (s.drop j) = true →
      (∀ k, k < j → pat.isPrefixOf (s.drop k) = false) →
      pyFindAux pat s i = some (i + j) := by
  induction s with
  | nil =>
    intro i j h1 h2
    have hpat : pat = [] := by
      cases pat with
      | nil => rfl
      | cons a as => simp [List.isPrefixOf] at h1
    have hj : j = 0 := by
      by_contra hne
      have := h2 0 (Nat.pos_of_ne_zero hne)
      rw [hpat] at this
      simp [List.isPrefixOf] at this
    subst hpat hj
    simp [pyFindAux]
  | cons c rest ih =>
    intro i j h1 h2
    cases j with
    | zero =>
      simp only [List.drop_zero] at h1
      simp [pyFindAux, h1]
    | succ j' =>
      have h0 : pat.isPrefixOf (c :: rest) = false := by
        simpa using h2 0 (Nat.succ_pos j')
      have h1' : pat.isPrefixOf (rest.drop j') = true := by
        simpa [List.drop_succ_cons] using h1
      have h2' : ∀ k, k < j' → pat.isPrefixOf (rest.drop k) = false := by
        intro k hk
        simpa [List.drop_succ_cons] using h2 (k + 1) (Nat.succ_lt_succ hk)
      have := ih (i + 1) j' h1' h2'
      rw [pyFindAux, if_neg (by simp [h0])]
      rw [this]
      congr 1
      omega

theorem pyFind_eq_some_of_minimal (s pat : List Char) (j : Nat)
    (h1 : occursAt pat s j) (h2 : ∀ k, k < j → ¬ occursAt pat s k) :
    pyFind s pat = some j := by
  have := pyFindAux_min pat s 0 j h1
    (fun k hk => Bool.eq_false_iff.mpr (h2 k hk))
  simpa [pyFind] using this

theorem pyFindAux_none_forall (pat : List Char) (s : List Char) :
    ∀ i, pyFindAux pat s i = none → ∀ d, pat.isPrefixOf (s.drop d) = false := by
  induction s with
  | nil =>
    intro i h d
    cases pat with
    | nil => simp [pyFindAux] at h
    | cons a as => simp [List.isPrefixOf]
  | cons c rest ih =>
    intro i h d
    by_cases hp : pat.isPrefixOf (c :: rest) = true
    · simp [pyFindAux, hp] at h
    · have h' : pyFindAux pat rest (i + 1) = none := by
        simpa [pyFindAux, hp] using h
      cases d with
      | zero =>
        simpa using Bool.eq_false_iff.mpr hp
      | succ d' =>
        rw [List.drop_succ_cons]
        exact ih (i + 1) h' d'

theorem pyFindAux_some_occurs (pat : List Char) (s : List Char) :
    ∀ i j, pyFindAux pat s i = some j → ∃ d, pat.isPrefixOf (s.drop d) = true := by
  induction s with
  | nil =>
    intro i j h
    cases pat with
    | nil => exact ⟨0, by simp [List.isPrefixOf]⟩
    | cons a as => simp [pyFindAux] at h
  | cons c rest ih =>
    intro i j h
    by_cases hp : pat.isPrefixOf (c :: rest) = true
    · exact ⟨0, hp⟩
    · have h' : pyFindAux pat rest (i + 1) = some j := by
        simpa [pyFindAux, hp] using h
      obtain ⟨d, hd⟩ := ih (i + 1) j h'
      exact ⟨d + 1, by simpa [List.drop_succ_cons] using hd⟩

theorem pyFind_eq_none_of_not_occurs (s pat : List Char)
    (h : ∀ k, ¬ occursAt pat s k) : pyFind s pat = none := by
  cases hf : pyFind s pat with
  | none => rfl
  | some j =>
    obtain ⟨d, hd⟩ := pyFindAux_some_occurs pat s 0 j hf
    exact absurd hd (h d)

/-- Shared characterization of the splitter when both markers occur: with
`i` the first (leftmost) occurrence of `"COVER LETTER:"` in the uppercased
text and `e` the first occurrence of `"CV IMPROVEMENT"`, the result is the
trimmed slice from the end of the start marker to `e`. -/
theorem coverLetterText_found (s : List Char) (i e : Nat)
    (h1 : occursAt coverMarker (pyUpper s) i)
    (h2 : ∀ k, k < i → ¬ occursAt coverMarker (pyUpper s) k)
    (h3 : occursAt cvMarker (pyUpper s) e)
    (h4 : ∀ k, k < e → ¬ occursAt cvMarker (pyUpper s) k) :
    coverLetterText s = pyStrip (pySlice s (i + coverMarker.length) e) := by
  unfold coverLetterText
  rw [pyFind_eq_some_of_minimal _ _ i h1 h2, pyFind_eq_some_of_minimal _ _ e h3 h4]

theorem pyUpperChar_ascii (c : Char) (h : c.toNat < 128) :
    pyUpperChar c = [c.toUpper] := by
  have hne : ∀ d : Char, 128 ≤ d.toNat → ¬ c = d := by
    intro d hd he
    rw [he] at h
    omega
  rw [pyUpperChar, if_neg (hne _ (by decide)), if_neg (hne _ (by decide)),
    if_neg (hne _ (by decide)), if_neg (hne _ (by decide)),
    if_neg (hne _ (by decide)), if_neg (hne _ (by decide)),
    if_neg (hne _ (by decide)), if_neg (hne _ (by decide)),
    if_neg (hne _ (by decide)), if_neg (hne _ (by decide)),
    if_neg (hne _ (by decide))]

/-- On an ASCII string, Python `upper()` is exactly the character-wise
`a`–`z` to `A`–`Z` map, in particular length-preserving. -/
theorem pyUpper_eq_map_of_ascii (s : List Char) (h : ∀ c ∈ s, c.toNat < 128) :
    pyUpper s = s.map Char.toUpper := by
  induction s with
  | nil => rfl
  | cons c rest ih =>
    have hc := pyUpperChar_ascii c (h c (List.mem_cons_self c rest))
    have hrest := ih (fun d hd => h d (List.mem_cons_of_mem c hd))
    rw [pyUpper] at hrest
    rw [pyUpper, List.flatMap_cons, hc, hrest, List.map_cons]
    rfl

/-- Claim C7 counterexample: on the completion
`"ß COVER LETTER: X CV IMPROVEMENT"` both markers are present
case-insensitively — `"COVER LETTER:"` first at position 2 of the
completion itself and `"CV IMPROVEMENT"` first at position 18, so the
trimmed text strictly between the end of the start marker (position 15)
and the end marker is exactly `"X"` — but Python `upper()` expands `ß` to
`SS`, the indices found in the uppercased string are shifted by one
relative to the completion, and the splitter slices the completion with
them, returning `"X C"`, not `"X"`. -/
theorem c7_counterexample :
    occursAt coverMarker
      ("ß COVER LETTER: X CV IMPROVEMENT".toList.map Char.toUpper) 2 ∧
    (∀ k, k < 2 → ¬ occursAt coverMarker
      ("ß COVER LETTER: X CV IMPROVEMENT".toList.map Char.toUpper) k) ∧
    occursAt cvMarker
      ("ß COVER LETTER: X CV IMPROVEMENT".toList.map Char.toUpper) 18 ∧
    (∀ k, k < 18 → ¬ occursAt cvMarker
      ("ß COVER LETTER: X CV IMPROVEMENT".toList.map Char.toUpper) k) ∧
    pyStrip (pySlice "ß COVER LETTER: X CV IMPROVEMENT".toList
      (2 + coverMarker.length) 18) = "X".toList ∧
    coverLetterText "ß COVER LETTER: X CV IMPROVEMENT".toList = "X C".toList ∧
    coverLetterText "ß COVER LETTER: X CV IMPROVEMENT".toList
      ≠ pyStrip (pySlice "ß COVER LETTER: X CV IMPROVEMENT".toList
          (2 + coverMarker.length) 18) :=
  ⟨by decide, by decide, by decide, by decide, by decide, by decide, by decide⟩

/-- Claim C7 (amended): for an ASCII completion — where Python `upper()`
is length-preserving, so positions in the uppercased string are positions
in the completion — when both markers are present case-insensitively,
`i` being the first case-insensitive occurrence of `"COVER LETTER:"` and
`e` the first of `"CV IMPROVEMENT"`, the Output Splitter returns the
trimmed text strictly between the end of `"COVER LETTER:"` and the start
of `"CV IMPROVEMENT"`.  In particular (see the witness) on
`"noise COVER LETTER: X CV IMPROVEMENT SUGGESTIONS: Y"` it returns
exactly `"X"`.  Completions with an uppercase-expanding character are
excluded: `c7_counterexample` shows the statement fails on them. -/
theorem c7_splitter_between_markers (s : List Char) (i e : Nat)
    (hascii : ∀ c ∈ s, c.toNat < 128)
    (h1 : occursAt coverMarker (s.map Char.toUpper) i)
    (h2 : ∀ k, k < i → ¬ occursAt coverMarker (s.map Char.toUpper) k)
    (h3 : occursAt cvMarker (s.map Char.toUpper) e)
    (h4 : ∀ k, k < e → ¬ occursAt cvMarker (s.map Char.toUpper) k) :
    coverLetterText s = pyStrip (pySlice s (i + coverMarker.length) e) := by
  have hup : pyUpper s = s.map Char.toUpper := pyUpper_eq_map_of_ascii s hascii
  exact coverLetterText_found s i e (by rw [hup]; exact h1)
    (fun k hk => by rw [hup]; exact h2 k hk)
    (by rw [hup]; exact h3)
    (fun k hk => by rw [hup]; exact h4 k hk)

/-- Witness for C7: the synthetic completion
`"noise COVER LETTER: X CV IMPROVEMENT SUGGESTIONS: Y"` is ASCII, the
markers first occur at positions 6 and 22, and the splitter returns
exactly `"X"`. -/
theorem c7_witness :
    (∀ c ∈ "noise COVER LETTER: X CV IMPROVEMENT SUGGESTIONS: Y".toList,
      c.toNat < 128) ∧
    occursAt coverMarker
      ("noise COVER LETTER: X CV IMPROVEMENT SUGGESTIONS: Y".toList.map
        Char.toUpper) 6 ∧
    occursAt cvMarker
      ("noise COVER LETTER: X CV IMPROVEMENT SUGGESTIONS: Y".toList.map
        Char.toUpper) 22 ∧
    coverLetterText "noise COVER LETTER: X CV IMPROVEMENT SUGGESTIONS: Y".toList
      = "X".toList :=
  ⟨by decide, by decide, by decide,
   (c7_splitter_between_markers
      "noise COVER LETTER: X CV IMPROVEMENT SUGGESTIONS: Y".toList 6 22
      (by decide) (by decide) (by decide) (by decide) (by decide)).trans
     (by decide)⟩

/-- Claim C10: when `"CV IMPROVEMENT"` first occurs (case-insensitively) at
or before the end of the first case-insensitive occurrence of
`"COVER LETTER:"` — the sections reordered — the Output Splitter returns the
empty string, because the end-marker search starts from the beginning of the
string rather than after the start marker. -/
theorem c10_reordered_sections_empty (s : List Char) (i e : Nat)
    (h1 : occursAt coverMarker (pyUpper s) i)
    (h2 : ∀ k, k < i → ¬ occursAt coverMarker (pyUpper s) k)
    (h3 : occursAt cvMarker (pyUpper s) e)
    (h4 : ∀ k, k < e → ¬ occursAt cvMarker (pyUpper s) k)
    (h5 : e ≤ i + coverMarker.length) :
    coverLetterText s = [] := by
  rw [coverLetterText_found s i e h1 h2 h3 h4]
  unfold pySlice
  rw [Nat.sub_eq_zero_of_le h5]
  rfl

/-- Witness for C10: on
`"CV IMPROVEMENT SUGGESTIONS: Y COVER LETTER: X"` the start marker first
occurs at 30 and the end marker at 0, and the splitter returns the empty
string. -/
theorem c10_witness :
    occursAt coverMarker
      (pyUpper "CV IMPROVEMENT SUGGESTIONS: Y COVER LETTER: X".toList) 30 ∧
    occursAt cvMarker
      (pyUpper "CV IMPROVEMENT SUGGESTIONS: Y COVER LETTER: X".toList) 0 ∧
    coverLetterText "CV IMPROVEMENT SUGGESTIONS: Y COVER LETTER: X".toList = [] :=
  ⟨by decide, by decide,
   c10_reordered_sections_empty
     "CV IMPROVEMENT SUGGESTIONS: Y COVER LETTER: X".toList 30 0
     (by decide) (by decide) (by decide) (by decide) (by decide)⟩

/-- Claim C2 counterexample: on the completion `"  hi  "`, which contains no
`"COVER LETTER:"` marker, the splitter returns `"  hi  "` itself, not the
trimmed `"hi"` the claim requires — the `else` branch at line 260 performs
no `strip()`. -/
theorem c2_counterexample :
    pyFind (pyUpper "  hi  ".toList) coverMarker = none ∧
    coverLetterText "  hi  ".toList ≠ pyStrip "  hi  ".toList := by
  decide

/-- Claim C2 (amended): for every completion string that does not contain
the substring `"COVER LETTER:"` case-insensitively, the Output Splitter
returns the entire input unchanged, with no trimming applied. -/
theorem c2_no_marker_returns_input (s : List Char)
    (h : ∀ k, ¬ occursAt coverMarker (pyUpper s) k) :
    coverLetterText s = s := by
  have hnone : pyFind (pyUpper s) coverMarker = none :=
    pyFind_eq_none_of_not_occurs _ _ h
  unfold coverLetterText
  rw [hnone]

/-- Witness for C2: `"hello"` contains no marker and is returned
unchanged. -/
theorem c2_witness :
    (∀ k, ¬ occursAt coverMarker (pyUpper "hello".toList) k) ∧
    coverLetterText "hello".toList = "hello".toList := by
  have hno : ∀ k, ¬ occursAt coverMarker (pyUpper "hello".toList) k := by
    intro k hk
    have := pyFindAux_none_forall coverMarker (pyUpper "hello".toList) 0
      (by decide) k
    rw [occursAt, this] at hk
    exact absurd hk (by simp)
  exact ⟨hno, c2_no_marker_returns_input "hello".toList hno⟩

/-- Claim C1 (refuted — code bug): the chat-completion call is claimed to
use the `model` argument given to `generate_cover_letter_and_cv_tips` as
the model of the request, but line 128 passes the module-level global
`model_name` instead, ignoring the function's own `model` parameter: for
every choice of arguments the request's model equals the global, and at the
concrete input with global `"gpt-5"` and argument `"gpt-4o-mini"` the
request uses `"gpt-5"`, not the caller-selected identifier. -/
theorem c1_model_argument_ignored :
    (∀ (g jd cv tone m : String),
      (generate_cover_letter_and_cv_tips g jd cv tone m).model = g) ∧
    (generate_cover_letter_and_cv_tips "gpt-5" "J" "C" "Professional"
        "gpt-4o-mini").model = "gpt-5" ∧
    (generate_cover_letter_and_cv_tips "gpt-5" "J" "C" "Professional"
        "gpt-4o-mini").model ≠ "gpt-4o-mini" :=
  ⟨fun _ _ _ _ _ => rfl, rfl, by decide⟩

/-- Claim C3: after any sequence of save-key and change-key operations,
whenever the key-saved state is active (`show_api_input` is `False`) and the
pipeline is allowed to run (the gate `if not st.session_state.api_key:
st.stop()` does not stop), the stored API key string is non-empty. -/
theorem c3_accepted_key_nonempty (ops : List KeyOp)
    (h1 : allowedToRun (runKeyOps ops) = true)
    (h2 : (runKeyOps ops).show_api_input = false) :
    ∃ k, (runKeyOps ops).api_key = some k ∧ k ≠ "" := by
  cases hk : (runKeyOps ops).api_key with
  | none =>
    rw [allowedToRun, hk] at h1
    exact absurd h1 (by simp)
  | some k =>
    refine ⟨k, rfl, ?_⟩
    rw [allowedToRun, hk] at h1
    simpa using h1

/-- Witness for C3: after saving the key `"sk-test"`, the input form is
hidden, the gate passes, and the stored key is non-empty. -/
theorem c3_witness :
    allowedToRun (runKeyOps [KeyOp.save "sk-test"]) = true ∧
    (runKeyOps [KeyOp.save "sk-test"]).show_api_input = false ∧
    ∃ k, (runKeyOps [KeyOp.save "sk-test"]).api_key = some k ∧ k ≠ "" :=
  ⟨by decide, by decide,
   c3_accepted_key_nonempty [KeyOp.save "sk-test"] (by decide) (by decide)⟩

/-- Claim C4: whenever the Web Scraper's result starts with
`"[Scrape error]"` or the Text Extractor's result starts with
`"[CV read error]"`, the Generate-button handler never invokes the remote
generation call and produces no download artifacts. -/
theorem c4_sentinel_short_circuits (inputsPresent : Bool)
    (job_desc cv_content : List Char) (model_name : String)
    (gen : Except (List Char) (List Char)) (fontFileExists : Bool)
    (h : scrapeErrMarker.isPrefixOf job_desc = true ∨
         cvErrMarker.isPrefixOf cv_content = true) :
    (generateHandler inputsPresent job_desc cv_content model_name gen
        fontFileExists).generateCalled = false ∧
    (generateHandler inputsPresent job_desc cv_content model_name gen
        fontFileExists).artifacts = none := by
  cases inputsPresent with
  | false => exact ⟨rfl, rfl⟩
  | true =>
    rcases h with h | h
    · rw [generateHandler.eq_def, if_neg (by simp), if_pos (by simp [h])]
      exact ⟨rfl, rfl⟩
    · by_cases hs : scrapeErrMarker.isPrefixOf job_desc = true
      · rw [generateHandler.eq_def, if_neg (by simp), if_pos (by simp [hs])]
        exact ⟨rfl, rfl⟩
      · rw [generateHandler.eq_def, if_neg (by simp),
          if_neg (by simpa using hs), if_pos (by simp [h])]
        exact ⟨rfl, rfl⟩

/-- Witness for C4: with a scrape-error sentinel as job description, the
handler does not call the generator and offers no downloads. -/
theorem c4_witness :
    (scrapeErrMarker.isPrefixOf "[Scrape error] timeout".toList = true ∨
     cvErrMarker.isPrefixOf "my cv".toList = true) ∧
    (generateHandler true "[Scrape error] timeout".toList "my cv".toList
        "gpt-5" (Except.ok "COVER LETTER: hi".toList) true).generateCalled
      = false ∧
    (generateHandler true "[Scrape error] timeout".toList "my cv".toList
        "gpt-5" (Except.ok "COVER LETTER: hi".toList) true).artifacts
      = none :=
  ⟨Or.inl (by decide),
   (c4_sentinel_short_circuits true "[Scrape error] timeout".toList
      "my cv".toList "gpt-5" (Except.ok "COVER LETTER: hi".toList) true
      (Or.inl (by decide))).1,
   (c4_sentinel_short_circuits true "[Scrape error] timeout".toList
      "my cv".toList "gpt-5" (Except.ok "COVER LETTER: hi".toList) true
      (Or.inl (by decide))).2⟩

/-- An HTTP-level failure of the scrape: either the GET raised a transport
error (timeout, DNS failure, connection error), or the exchange completed
with a client/server error status that `raise_for_status` raises on. -/
def isHttpFailure : Except (List Char) HttpResponse → Prop
  | .error _ => True
  | .ok r => 400 ≤ r.status ∧ r.status < 600

/-- Claim C5: for every fetch outcome on which the HTTP GET fails or
returns a non-success status, `scrape_job_description` returns a string
starting with the fixed marker `"[Scrape error]"`; being a total function
of the fetch outcome, it raises no exception. -/
theorem c5_scrape_failure_sentinel (fetch : Except (List Char) HttpResponse)
    (h : isHttpFailure fetch) :
    scrapeErrMarker.isPrefixOf (scrape_job_description fetch) = true := by
  cases fetch with
  | error e =>
    rw [ List.isPrefixOf_iff_prefix]
    exact ⟨' ' :: e, rfl⟩
  | ok r =>
    obtain ⟨h4, h6⟩ := h
    have hr : raisesForStatus r.status = true := by
      simp [raisesForStatus]
      omega
    rw [scrape_job_description, if_pos (by simp [hr])]
    rw [ List.isPrefixOf_iff_prefix]
    exact ⟨' ' :: statusErrText r.status, rfl⟩

/-- Witness for C5: a timed-out GET and a 404 response both yield
sentinel-prefixed results. -/
theorem c5_witness :
    isHttpFailure (Except.error "timeout".toList) ∧
    scrapeErrMarker.isPrefixOf
      (scrape_job_description (Except.error "timeout".toList)) = true ∧
    isHttpFailure (Except.ok (HttpResponse.mk 404 [])) ∧
    scrapeErrMarker.isPrefixOf
      (scrape_job_description (Except.ok (HttpResponse.mk 404 []))) = true :=
  ⟨trivial,
   c5_scrape_failure_sentinel (Except.error "timeout".toList) trivial,
   ⟨by norm_num, by norm_num⟩,
   c5_scrape_failure_sentinel (Except.ok (HttpResponse.mk 404 []))
     ⟨by norm_num, by norm_num⟩⟩

theorem textsForest_append (a b : List Node) :
    textsForest (a ++ b) = textsForest a ++ textsForest b := by
  induction a with
  | nil => rfl
  | cons n ns ih => simp [textsForest, ih, List.append_assoc]

mutual
/-- What `get_text` collects after `decompose()` on one node is exactly the
node's visible text, the contents of `script`/`style`/`noscript` subtrees
excluded. -/
theorem textsNode_decompose (n : Node) :
    textsForest (decomposeNode n) = visibleTextsNode n := by
  cases n with
  | text s => simp [decomposeNode, textsForest, textsNode, visibleTextsNode]
  | elem t cs =>
    by_cases hb : t ∈ badTags
    · simp [decomposeNode, hb, textsForest, visibleTextsNode]
    · simp [decomposeNode, hb, textsForest, textsNode, visibleTextsNode,
        textsForest_decompose cs]

/-- Forest version of `textsNode_decompose`. -/
theorem textsForest_decompose (ns : List Node) :
    textsForest (decomposeForest ns) = visibleTextsForest ns := by
  cases ns with
  | nil => rfl
  | cons n ns =>
    rw [decomposeForest, textsForest_append, visibleTextsForest,
      textsNode_decompose n, textsForest_decompose ns]
end

/-- Claim C6: the scraper's HTML processing never lets the textual content
of `<script>`, `<style>` or `<noscript>` elements into its output — the
result is a function of the visible text nodes only, taken in document
order, joined on newlines, with each line stripped and blank lines removed;
concretely, a document whose script holds `"SECRET"` and whose paragraph
holds `"Senior Engineer role"` yields exactly `"Senior Engineer role"`, and
`"SECRET"` occurs nowhere in the output. -/
theorem c6_script_content_never_leaks :
    (∀ doc : List Node,
      scrapeBody doc
        = normalizeLines (List.intercalate ['\n'] (visibleTextsForest doc))) ∧
    scrapeBody
      [Node.elem "body"
        [Node.elem "script" [Node.text "SECRET".toList],
         Node.elem "p" [Node.text "Senior Engineer role".toList]]]
      = "Senior Engineer role".toList ∧
    pyFind
      (scrapeBody
        [Node.elem "body"
          [Node.elem "script" [Node.text "SECRET".toList],
           Node.elem "p" [Node.text "Senior Engineer role".toList]]])
      "SECRET".toList = none := by
  refine ⟨fun doc => ?_, by decide, by decide⟩
  rw [scrapeBody, getText, textsForest_decompose]

/-- Claim C8: in the missing-font fallback, `sanitize_ascii` maps the eight
smart-punctuation characters `’ ‘ “ ” – — • …` to `' ' " " - - * ...`,
every character of its output is an ASCII codepoint (all remaining
non-ASCII codepoints are removed), and `save_as_pdf` without the embedded
font renders exactly the sanitized text; the export is a total function, so
it raises on no input. -/
theorem c8_pdf_fallback_sanitizes :
    (∀ (s : List Char) (c : Char), c ∈ sanitize_ascii s → c.toNat < 128) ∧
    sanitize_ascii "’‘“”–—•…".toList
      = ['\x27', '\x27', '"', '"', '-', '-', '*', '.', '.', '.'] ∧
    (∀ text : List Char,
      save_as_pdf false text = ⟨pySplit (sanitize_ascii text) ['\n']⟩) := by
  refine ⟨?_, by decide, fun text => rfl⟩
  intro s c hc
  rw [sanitize_ascii, encodeAsciiIgnore] at hc
  simpa using (List.mem_filter.mp hc).2

/-- Witness for C8: sanitizing `"résumé"` keeps the ASCII letter `r`, and
it is indeed an ASCII codepoint. -/
theorem c8_witness :
    ('r' ∈ sanitize_ascii "résumé".toList) ∧ 'r'.toNat < 128 :=
  ⟨by decide, c8_pdf_fallback_sanitizes.1 "résumé".toList 'r' (by decide)⟩

theorem splitSeqFuel_ne_nil (sep : List Char) (fuel : Nat) :
    ∀ (acc s : List Char), splitSeqFuel sep fuel acc s ≠ [] := by
  induction fuel with
  | zero => intro acc s; simp [splitSeqFuel]
  | succ f ih =>
    intro acc s
    cases s with
    | nil => simp [splitSeqFuel]
    | cons c rest =>
      rw [splitSeqFuel]
      split
      · simp
      · exact ih _ _

theorem intercalate_cons_of_ne_nil (sep a : List Char)
    (l : List (List Char)) (h : l ≠ []) :
    List.intercalate sep (a :: l) = a ++ sep ++ List.intercalate sep l := by
  obtain ⟨x, xs, rfl⟩ := List.exists_cons_of_ne_nil h
  simp [List.intercalate, List.intersperse_cons_cons, List.append_assoc]

/-- Joining the pieces produced by `pySplit` with the separator restores the
original string: the split really is a tiling of the input on separator
boundaries. -/
theorem intercalate_splitSeqFuel (sep : List Char) (hsep : sep ≠ [])
    (fuel : Nat) :
    ∀ (acc s : List Char), s.length < fuel →
      List.intercalate sep (splitSeqFuel sep fuel acc s)
        = acc.reverse ++ s := by
  induction fuel with
  | zero => intro acc s h; exact absurd h (Nat.not_lt_zero _)
  | succ f ih =>
    intro acc s h
    cases s with
    | nil => simp [splitSeqFuel, List.intercalate]
    | cons c rest =>
      rw [splitSeqFuel]
      split
      case isTrue hp =>
        obtain ⟨t, ht⟩ := List.isPrefixOf_iff_prefix.mp hp
        have hdrop : rest.drop (sep.length - 1) = t := by
          have hd : (sep ++ t).drop sep.length = t := by simp
          rw [ht] at hd
          cases hsl : sep.length with
          | zero => exact absurd (List.length_eq_zero.mp hsl) hsep
          | succ m => rw [hsl] at hd; simpa using hd
        rw [intercalate_cons_of_ne_nil _ _ _ (splitSeqFuel_ne_nil sep f _ _)]
        rw [ih [] (rest.drop (sep.length - 1))
          (by rw [List.length_drop]; simp only [List.length_cons] at h; omega)]
        rw [hdrop]
        simp [← ht, List.append_assoc]
      case isFalse hp =>
        rw [ih (c :: acc) rest (by simpa using Nat.lt_of_succ_lt_succ h)]
        simp

/-- Claim C9: the word-document exporter splits its input on double-newline
boundaries and appends each piece as one paragraph in order — on
`"Para one\n\nPara two"` the document has exactly the two paragraphs
`"Para one"` and `"Para two"` — and joining the paragraphs back with a
double newline restores the input text. -/
theorem c9_docx_paragraphs :
    save_as_docx "Para one\n\nPara two".toList
      = ["Para one".toList, "Para two".toList] ∧
    (∀ text : List Char, save_as_docx text = pySplit text ['\n', '\n']) ∧
    (∀ text : List Char,
      List.intercalate ['\n', '\n'] (save_as_docx text) = text) := by
  refine ⟨by decide, fun text => rfl, fun text => ?_⟩
  have := intercalate_splitSeqFuel ['\n', '\n'] (by decide)
    (text.length + 1) [] text (Nat.lt_succ_self _)
  simpa [save_as_docx, pySplit] using this

end ApplyBuddy
